import Mathlib

/-!
Verification development for the raspberry-pi thermal-printer repository
(`server1.py`, `printer_boot_notify.py`).

The Python sources are shallowly embedded: external collaborators (CUPS,
the network, the filesystem, subprocess utilities) are passed in as
explicit environment values, and the functions under scrutiny are
translated into executable Lean definitions that mirror the control flow
of the source line by line.  Machine strings that are scanned bytewise by
the source (MAC addresses, command output) are modelled as lists of
character codes (`List Nat`, ASCII); higher-level names and URIs are kept
as `String`.
-/

namespace PrinterServer

/-! ### Job dispatch (`server1.py`, `send_to_cups`, lines 351-423)

`send_to_cups` loops `for attempt in range(1, max_attempts + 1)`.  Each
iteration first calls `ensure_printer_ready` (a readiness check); a
not-ready result raises `HTTPException(503, message)` which is caught,
recorded as `last_error`, and the loop sleeps `PRINT_RETRY_DELAY` and
retries while attempts remain, re-raising on the final attempt.  The
job-submission call (`conn.printData`) happens only after a ready result.
`max_attempts = PRINT_MAX_RETRIES if retry else 1`; with
`PRINT_MAX_RETRIES <= 0` the loop body never runs and the function
executes `raise last_error` with `last_error = None` (an unclassified
`TypeError` in Python), modelled as `DispatchErr.noneRaised`. -/

/-- What the external world does on one iteration of the dispatch loop:
the readiness gate reports not-ready with a message, the queue has
vanished from CUPS between the gate and submission, submission succeeds
with a job id, or submission raises with a message. -/
inductive AttemptOutcome where
  | notReady (msg : String)
  | queueMissing
  | submitOk (jobId : Nat)
  | submitErr (msg : String)
deriving DecidableEq

/-- Terminal error of a dispatch: a re-raised `HTTPException` with status
and detail, a CUPS error wrapped as status 500, or the `raise None` that
happens when the attempt loop never executed. -/
inductive DispatchErr where
  | http (status : Nat) (detail : String)
  | noneRaised
deriving DecidableEq

/-- Observable trace of one `send_to_cups` call: the final result plus
counts of readiness checks, job-submission calls, and inter-attempt
sleeps. -/
structure DispatchTrace where
  result : Except DispatchErr Nat
  readyChecks : Nat
  submitCalls : Nat
  sleeps : Nat

/-- The error each attempt outcome is recorded/raised as (`last_error`). -/
def attemptErr (queueName : String) : AttemptOutcome → DispatchErr
  | AttemptOutcome.notReady m => DispatchErr.http 503 m
  | AttemptOutcome.queueMissing => DispatchErr.http 400 ("CUPS queue " ++ queueName ++ " not found")
  | AttemptOutcome.submitErr m => DispatchErr.http 500 ("CUPS error: " ++ m)
  | AttemptOutcome.submitOk _ => DispatchErr.noneRaised

/-- One attempt invokes the job-submission collaborator exactly when the
readiness gate reported ready and the queue was still present. -/
def attemptSubmits : AttemptOutcome → Nat
  | AttemptOutcome.submitOk _ => 1
  | AttemptOutcome.submitErr _ => 1
  | AttemptOutcome.notReady _ => 0
  | AttemptOutcome.queueMissing => 0

/-- The retry loop of `send_to_cups`, starting at attempt number
`attempt` with `remaining` iterations left.  `env` gives the world's
behaviour on each attempt number. -/
def runAttempts (queueName : String) (env : Nat → AttemptOutcome) (attempt : Nat) :
    Nat → DispatchTrace
  | 0 => ⟨Except.error DispatchErr.noneRaised, 0, 0, 0⟩
  | Nat.succ remaining =>
    match env attempt with
    | AttemptOutcome.submitOk jobId =>
      ⟨Except.ok jobId, 1, 1, 0⟩
    | o =>
      if remaining = 0 then
        ⟨Except.error (attemptErr queueName o), 1, attemptSubmits o, 0⟩
      else
        let t := runAttempts queueName env (attempt + 1) remaining
        ⟨t.result, t.readyChecks + 1, t.submitCalls + attemptSubmits o, t.sleeps + 1⟩

/-- `send_to_cups` (`server1.py:351-423`): `max_attempts` is the
configured `PRINT_MAX_RETRIES` when `retry` is set, else 1; attempts are
numbered from 1.  A non-positive configured value yields an empty
`range` and ends in `raise last_error` with `last_error = None`. -/
def send_to_cups (queueName : String) (env : Nat → AttemptOutcome) (retry : Bool)
    (maxRetries : Int) : DispatchTrace :=
  runAttempts queueName env 1 (if retry then maxRetries else 1).toNat

/-! ### Configuration pass-through (`server1.py`, lines 33-36, 247-266)

`PRINT_MAX_RETRIES = int(os.getenv(...))` and
`PRINTER_TIMEOUT = float(os.getenv(...))` are parsed and used with no
clamping.  `check_printer_reachable` substitutes the configured timeout
only when its argument is `None`.  Timeouts are modelled as rationals
(the source only passes the float through, never computes with it). -/

/-- Timeout actually handed to the socket probe by
`check_printer_reachable` (`server1.py:255-256`). -/
def reachability_timeout (cfgTimeout : ℚ) (timeout : Option ℚ) : ℚ :=
  timeout.getD cfgTimeout

/-! ### Wait-for-printers clamps (`server1.py`, lines 882-883) -/

/-- Effective wait timeout: `timeout = max(5, min(120, timeout))`. -/
def wait_timeout_eff (timeout : Int) : Int :=
  max 5 (min 120 timeout)

/-- Effective poll interval: `interval = max(0.5, min(10, interval))`. -/
def wait_interval_eff (interval : ℚ) : ℚ :=
  max (1/2) (min 10 interval)

/-! ### Readiness gate (`server1.py`, `ensure_printer_ready`, lines 269-316)

The function reads the queue's descriptor once (`get_printer_info`),
probes reachability when the descriptor carries an IP, then checks the
administrative state and the accepting flag against that single
snapshot.  With `auto_enable` it calls `enablePrinter`/`acceptJobs` on a
stopped queue and `acceptJobs` on a non-accepting queue; a remediation
call that completes without exception is trusted — the queue state is
never re-read before `(True, "Printer ready")` is returned. -/

/-- Snapshot of a queue descriptor as returned by `get_printer_info`:
target IP (if the URI has a network address), port, CUPS state
(3 = idle, 4 = processing, 5 = stopped) and the accepting-jobs flag. -/
structure PrinterInfo where
  ip : Option String
  port : Nat
  state : Nat
  is_accepting : Bool
deriving DecidableEq

/-- Outcome messages of `ensure_printer_ready`, one constructor per
return-site format string in the source. -/
inductive ReadyMsg where
  | notFound (printer : String)
  | notReachable (printer : String) (ip : String) (port : Nat)
  | stoppedEnableFailed (printer : String)
  | stopped (printer : String)
  | acceptEnableFailed (printer : String)
  | notAccepting (printer : String)
  | ready
deriving DecidableEq

/-- External world for one readiness check.  `stateAfterEnable` and
`acceptingAfterAccept` describe the queue's actual condition after a
successful remediation call; the source never consults them (it trusts
the call), which is exactly what claims about re-checking are tested
against. -/
structure ReadyEnv where
  info : Option PrinterInfo
  reachable : String → Nat → Bool
  enableOk : Bool
  acceptOk : Bool
  stateAfterEnable : Nat
  acceptingAfterAccept : Bool

/-- Administrative-state and accepting checks of `ensure_printer_ready`
(`server1.py:288-316`), run after the reachability gate. -/
def adminChecks (env : ReadyEnv) (printerName : String) (info : PrinterInfo)
    (autoEnable : Bool) : Bool × ReadyMsg :=
  if info.state = 5 then
    if autoEnable then
      if env.enableOk then
        if !info.is_accepting then
          if env.acceptOk then (true, ReadyMsg.ready)
          else (false, ReadyMsg.acceptEnableFailed printerName)
        else (true, ReadyMsg.ready)
      else (false, ReadyMsg.stoppedEnableFailed printerName)
    else (false, ReadyMsg.stopped printerName)
  else
    if !info.is_accepting then
      if autoEnable then
        if env.acceptOk then (true, ReadyMsg.ready)
        else (false, ReadyMsg.acceptEnableFailed printerName)
      else (false, ReadyMsg.notAccepting printerName)
    else (true, ReadyMsg.ready)

/-- `ensure_printer_ready` (`server1.py:269-316`): not-found, then
reachability for network queues, then the administrative checks. -/
def ensure_printer_ready (env : ReadyEnv) (printerName : String) (autoEnable : Bool) :
    Bool × ReadyMsg :=
  match env.info with
  | none => (false, ReadyMsg.notFound printerName)
  | some info =>
    match info.ip with
    | some ip =>
      if !env.reachable ip info.port then
        (false, ReadyMsg.notReachable printerName ip info.port)
      else adminChecks env printerName info autoEnable
    | none => adminChecks env printerName info autoEnable

/-- Modelled from the spec (section 4.5, for comparison with the code):
after a successful remediation call the gate re-checks the remediated
condition once, reporting `Stopped` / `NotAccepting` if it still fails.
Identical to `ensure_printer_ready` except for the two re-checks of
`stateAfterEnable` and `acceptingAfterAccept`. -/
def adminChecksSpec (env : ReadyEnv) (printerName : String) (info : PrinterInfo)
    (autoEnable : Bool) : Bool × ReadyMsg :=
  if info.state = 5 then
    if autoEnable then
      if env.enableOk then
        if env.stateAfterEnable = 5 then (false, ReadyMsg.stopped printerName)
        else if !info.is_accepting then
          if env.acceptOk then
            if !env.acceptingAfterAccept then (false, ReadyMsg.notAccepting printerName)
            else (true, ReadyMsg.ready)
          else (false, ReadyMsg.acceptEnableFailed printerName)
        else (true, ReadyMsg.ready)
      else (false, ReadyMsg.stoppedEnableFailed printerName)
    else (false, ReadyMsg.stopped printerName)
  else
    if !info.is_accepting then
      if autoEnable then
        if env.acceptOk then
          if !env.acceptingAfterAccept then (false, ReadyMsg.notAccepting printerName)
          else (true, ReadyMsg.ready)
        else (false, ReadyMsg.acceptEnableFailed printerName)
      else (false, ReadyMsg.notAccepting printerName)
    else (true, ReadyMsg.ready)

/-- Spec-side readiness gate with the once-re-check behaviour. -/
def ensure_printer_ready_spec (env : ReadyEnv) (printerName : String)
    (autoEnable : Bool) : Bool × ReadyMsg :=
  match env.info with
  | none => (false, ReadyMsg.notFound printerName)
  | some info =>
    match info.ip with
    | some ip =>
      if !env.reachable ip info.port then
        (false, ReadyMsg.notReachable printerName ip info.port)
      else adminChecksSpec env printerName info autoEnable
    | none => adminChecksSpec env printerName info autoEnable

/-! ### Registry persistence (`printer_boot_notify.py`, `save_mac_registry`,
lines 64-89)

`get_mac_registry_path` returns the privileged path when its directory
exists, else the user fallback path.  `save_mac_registry` writes there;
a `PermissionError` triggers exactly one further write at the fallback
path; any other exception — and any exception during the fallback
write — is printed and turned into `return False`.  The function never
raises and never mutates the registry it is given. -/

/-- Outcome of attempting a file write at one location. -/
inductive WriteOutcome where
  | ok
  | permissionDenied
  | otherFailure
deriving DecidableEq

/-- The two storage locations of the MAC registry. -/
inductive RegistryPath where
  | primary
  | fallback
deriving DecidableEq

/-- Filesystem behaviour for one save: whether the primary path's
directory exists, and the (deterministic) outcome of writing at each
location. -/
structure SaveEnv where
  primaryDirExists : Bool
  write : RegistryPath → WriteOutcome

/-- `get_mac_registry_path` (`printer_boot_notify.py:38-47`). -/
def get_mac_registry_path (env : SaveEnv) : RegistryPath :=
  if env.primaryDirExists then RegistryPath.primary else RegistryPath.fallback

/-- `save_mac_registry` (`printer_boot_notify.py:64-89`), returning the
success flag together with the list of locations written to, in order. -/
def save_mac_registry (env : SaveEnv) : Bool × List RegistryPath :=
  let p := get_mac_registry_path env
  match env.write p with
  | WriteOutcome.ok => (true, [p])
  | WriteOutcome.permissionDenied =>
    match env.write RegistryPath.fallback with
    | WriteOutcome.ok => (true, [p, RegistryPath.fallback])
    | _ => (false, [p, RegistryPath.fallback])
  | WriteOutcome.otherFailure => (false, [p])

/-! ### MAC resolution (`printer_boot_notify.py`, `get_mac_address`,
lines 92-166)

The function pings the IP (a pure side effect, not modelled), then tries
three lookup mechanisms in order: `ip neighbor show` (scan the
whitespace-split output for a token following `lladdr`, uppercase it and
validate it against `^([0-9A-F]{2}:){5}[0-9A-F]{2}$`), `arp -n` (skip
header lines containing `HWaddress` or `Address`, search each remaining
line for the first 17-character window matching
`([0-9a-fA-F]{2}[:-]){5}[0-9a-fA-F]{2}`, then uppercase it and replace
`-` with `:`), and `/proc/net/arp` (on lines mentioning the IP, take the
fourth whitespace-separated field, uppercase and validate).  Any absent
or failing mechanism is skipped.  Text is modelled as lists of ASCII
codes; `strBytes` converts literals. -/

/-- ASCII codes of a string literal (the Python data here is ASCII). -/
def strBytes (s : String) : List Nat :=
  s.data.map Char.toNat

/-- ASCII uppercasing of one byte, as Python `str.upper` acts on ASCII. -/
def upByte (c : Nat) : Nat :=
  if 97 ≤ c ∧ c ≤ 122 then c - 32 else c

/-- Uppercase a byte string (`.upper()`). -/
def upperBytes (l : List Nat) : List Nat :=
  l.map upByte

/-- Hex digit of either case (`[0-9a-fA-F]`). -/
def isHexAny (c : Nat) : Bool :=
  (48 ≤ c && c ≤ 57) || (97 ≤ c && c ≤ 102) || (65 ≤ c && c ≤ 70)

/-- Uppercase hex digit (`[0-9A-F]`). -/
def isHexUpper (c : Nat) : Bool :=
  (48 ≤ c && c ≤ 57) || (65 ≤ c && c ≤ 70)

/-- Separator accepted by the lenient pattern (`[:-]`: colon 58 or
hyphen 45). -/
def isSepAny (c : Nat) : Bool :=
  c == 58 || c == 45

/-- Matcher for `(hex{2} sep){n} hex{2}` anchored to the whole list — the
shape shared by both MAC regexes of the source (with `n = 5`). -/
def macChunks (hexOk sepOk : Nat → Bool) : Nat → List Nat → Bool
  | 0, [a, b] => hexOk a && hexOk b
  | Nat.succ n, a :: b :: s :: rest =>
    hexOk a && hexOk b && sepOk s && macChunks hexOk sepOk n rest
  | _, _ => false

/-- The lenient search pattern `([0-9a-fA-F]{2}[:-]){5}[0-9a-fA-F]{2}`. -/
def macLenient (l : List Nat) : Bool :=
  macChunks isHexAny isSepAny 5 l

/-- The strict validation pattern `^([0-9A-F]{2}:){5}[0-9A-F]{2}$`
(`printer_boot_notify.py:125,158`) — the normalized-MAC shape. -/
def macStrict (l : List Nat) : Bool :=
  macChunks isHexUpper (· == 58) 5 l

/-- `.upper().replace('-', ':')` on one byte. -/
def normalizeByte (c : Nat) : Nat :=
  let u := upByte c
  if u = 45 then 58 else u

/-- Normalization applied to an `arp` match
(`printer_boot_notify.py:145`). -/
def normalizeMac (l : List Nat) : List Nat :=
  l.map normalizeByte

/-- Byte-string prefix test. -/
def startsWithBytes : List Nat → List Nat → Bool
  | [], _ => true
  | _ :: _, [] => false
  | n :: ns, h :: hs => n == h && startsWithBytes ns hs

/-- Byte-string substring test (Python `in`). -/
def hasSubBytes (needle : List Nat) : List Nat → Bool
  | [] => needle.isEmpty
  | c :: rest => startsWithBytes needle (c :: rest) || hasSubBytes needle rest

/-- Leftmost 17-byte window matching the lenient MAC pattern
(`re.search` on a fixed-length pattern). -/
def findMacWindow : List Nat → Option (List Nat)
  | [] => none
  | c :: rest =>
    if macLenient ((c :: rest).take 17) then some ((c :: rest).take 17)
    else findMacWindow rest

/-- Whitespace (space or tab). -/
def isWsByte (c : Nat) : Bool :=
  c == 32 || c == 9

/-- Python `str.split()` with no argument: split on whitespace runs,
dropping empty fields. -/
def splitWs : List Nat → List (List Nat)
  | [] => []
  | c :: rest =>
    if isWsByte c then splitWs rest
    else (c :: rest.takeWhile (fun d => !isWsByte d)) ::
      splitWs (rest.dropWhile (fun d => !isWsByte d))
termination_by l => l.length
decreasing_by
  · simp
  · exact Nat.lt_succ_of_le (List.IsSuffix.length_le (List.dropWhile_suffix _))

/-- Mechanism 1 (`printer_boot_notify.py:113-128`): scan the token list
for `lladdr`, uppercase the following token, return it when it
validates, else keep scanning. -/
def findLladdr : List (List Nat) → Option (List Nat)
  | [] => none
  | t :: rest =>
    if t == strBytes "lladdr" then
      match rest with
      | next :: _ =>
        let m := upperBytes next
        if macStrict m then some m else findLladdr rest
      | [] => none
    else findLladdr rest

/-- Mechanism 2 (`printer_boot_notify.py:131-148`): skip header lines,
then return the normalized first lenient match of the first line that
has one. -/
def scanArpLines : List (List Nat) → Option (List Nat)
  | [] => none
  | line :: rest =>
    if hasSubBytes (strBytes "HWaddress") line || hasSubBytes (strBytes "Address") line then
      scanArpLines rest
    else
      match findMacWindow line with
      | some w => some (normalizeMac w)
      | none => scanArpLines rest

/-- Mechanism 3 (`printer_boot_notify.py:151-161`): on lines mentioning
the IP, validate the uppercased fourth field. -/
def scanProcArp (ip : List Nat) : List (List Nat) → Option (List Nat)
  | [] => none
  | line :: rest =>
    if startsWithBytes (ip ++ [32]) line || hasSubBytes ([32] ++ ip ++ [32]) line then
      let fields := splitWs line
      if 4 ≤ fields.length then
        let m := upperBytes (fields.getD 3 [])
        if macStrict m then some m else scanProcArp ip rest
      else scanProcArp ip rest
    else scanProcArp ip rest

/-- Observable behaviour of the three lookup mechanisms for one call:
`none` models an absent or erroring mechanism (or a non-zero exit /
empty output). -/
structure MacEnv where
  ipNeighborTokens : Option (List (List Nat))
  arpLines : Option (List (List Nat))
  procArpLines : Option (List (List Nat))

/-- Run one lookup mechanism if it is present; an absent or erroring
mechanism contributes nothing (its `try`/`except` block is skipped). -/
def tryLookup {α : Type} (src : Option α) (f : α → Option (List Nat)) :
    Option (List Nat) :=
  match src with
  | some x => f x
  | none => none

/-- `get_mac_address` (`printer_boot_notify.py:92-166`). -/
def get_mac_address (env : MacEnv) (ip : List Nat) : Option (List Nat) :=
  if ip == [] || ip == strBytes "unknown" then none
  else
    match tryLookup env.ipNeighborTokens findLladdr with
    | some m => some m
    | none =>
      match tryLookup env.arpLines scanArpLines with
      | some m => some m
      | none => tryLookup env.procArpLines (scanProcArp ip)

/-! ### Discovery and reconciliation (`printer_boot_notify.py`,
`discover_and_add_printers`, lines 447-636)

One pass loads the MAC registry, snapshots the configured queues with
their URIs (`existing_printers` / `existing_uris` / `existing_names` are
computed once and never refreshed during the pass), computes the next
`printer_N` index, and folds over the deduplicated set of discovered
URIs.  Queue-management calls (`lpadmin`) are modelled as succeeding.
The registry is mutated live during the pass; decisions about queues use
the stale snapshot.  Registered MACs are looked up after uppercasing
(`get_printer_name_by_mac`), while registry writes use the raw MAC key —
the two coincide because `get_mac_address` only produces uppercase MACs
(theorem `get_mac_address_normalized`); record updates are modelled as
no-ops on an absent key. -/

/-- One persisted identity record (`printer_boot_notify.py:563-569`). -/
structure RegRecord where
  name : String
  last_ip : String
  last_uri : String
  first_seen : String
  last_seen : String
deriving DecidableEq

/-- The MAC registry: a mapping keyed by MAC, in insertion order. -/
abbrev Registry := List (String × RegRecord)

/-- The configured queues with their device URIs (`lpstat -p` /
`lpstat -v`); a queue may have no URI recorded. -/
abbrev PrinterSet := List (String × Option String)

/-- Character-list prefix test (needle first). -/
def startsWithChars : List Char → List Char → Bool
  | [], _ => true
  | _ :: _, [] => false
  | n :: ns, h :: hs => n == h && startsWithChars ns hs

/-- Python `str.startswith`. -/
def pyStartsWith (s pre : String) : Bool :=
  startsWithChars pre.data s.data

/-- Splitting a character list on a non-empty separator, Python
`str.split(sep)` style; `fuel` bounds the recursion (callers pass the
list length). -/
def splitCore (sep : List Char) : Nat → List Char → List (List Char)
  | _, [] => [[]]
  | 0, l => [l]
  | Nat.succ fuel, c :: rest =>
    if startsWithChars sep (c :: rest) then
      [] :: splitCore sep fuel ((c :: rest).drop sep.length)
    else
      match splitCore sep fuel rest with
      | [] => [[c]]
      | f :: fs => (c :: f) :: fs

/-- Python `s.split(sep)` for a non-empty separator. -/
def pySplit (s sep : String) : List String :=
  (splitCore sep.data s.data.length s.data).map String.mk

/-- Python `int(s)` on the strings arising here: optional minus sign
followed by one or more decimal digits (other accepted Python forms such
as surrounding whitespace or a plus sign do not occur in queue names). -/
def digitsVal : List Char → Option Nat
  | [] => none
  | [c] => if c.isDigit then some (c.toNat - 48) else none
  | c :: rest =>
    if c.isDigit then
      match digitsVal rest with
      | some v => some ((c.toNat - 48) * 10 ^ rest.length + v)
      | none => none
    else none

/-- Python `int(s)` (see `digitsVal`). -/
def pyToInt (s : String) : Option Int :=
  match s.data with
  | '-' :: rest => (digitsVal rest).map (fun n => -(n : Int))
  | l => (digitsVal l).map (fun n => (n : Int))

/-- Python `dict.get`. -/
def dictGet {β : Type} (k : String) : List (String × β) → Option β
  | [] => none
  | e :: rest => if e.1 == k then some e.2 else dictGet k rest

/-- Python `dict[k] = v`: update in place, else append. -/
def dictSet {β : Type} (k : String) (v : β) (d : List (String × β)) :
    List (String × β) :=
  if (d.find? (fun e => e.1 == k)).isSome then
    d.map (fun e => if e.1 == k then (e.1, v) else e)
  else d ++ [(k, v)]

/-- ASCII uppercasing of a queue-name/MAC string (`str.upper`). -/
def strUpper (s : String) : String :=
  String.mk (s.data.map Char.toUpper)

/-- In-place update of a record's `last_ip`/`last_uri`/`last_seen`
(`printer_boot_notify.py:533-535`). -/
def touchRecord (mac ip uri now : String) (reg : Registry) : Registry :=
  reg.map (fun e =>
    if e.1 == mac then
      (e.1, { e.2 with last_ip := ip, last_uri := uri, last_seen := now })
    else e)

/-- `get_printer_name_by_mac` (`printer_boot_notify.py:185-190`): the
lookup key is the uppercased MAC. -/
def get_printer_name_by_mac (mac : String) (reg : Registry) : Option String :=
  match dictGet (strUpper mac) reg with
  | some r => some r.name
  | none => none

/-- `get_printer_by_uri` (`printer_boot_notify.py:193-198`): first
configured queue bound to the URI. -/
def get_printer_by_uri (uri : String) (printers : PrinterSet) : Option String :=
  match printers.find? (fun e => e.2 == some uri) with
  | some e => some e.1
  | none => none

/-- `extract_ip_from_uri` (`printer_boot_notify.py:169-182`): the text
between `://` and the following `:` (the whole remainder when it has no
colon); `none` when the URI is empty or has no scheme separator.  The
caller additionally treats an empty extracted string as missing. -/
def extract_ip_from_uri (uri : String) : Option String :=
  if uri == "" then none
  else
    let parts := pySplit uri "://"
    if 2 ≤ parts.length then
      let addr := parts.getD 1 ""
      if addr.data.contains ':' then some ((pySplit addr ":").getD 0 "")
      else some addr
    else none

/-- Second underscore-separated field of a queue name
(`n.split('_')[1]`). -/
def nameField (n : String) : String :=
  (pySplit n "_").getD 1 ""

/-- Python `max(int(n.split('_')[1]) for n in numbered)`: `none` when
any field fails to parse as an integer (the `int()` call raises). -/
def maxParsed : List String → Option Int
  | [] => none
  | [n] => pyToInt (nameField n)
  | n :: rest =>
    match pyToInt (nameField n), maxParsed rest with
    | some a, some b => some (max a b)
    | _, _ => none

/-- Next `printer_N` index (`printer_boot_notify.py:490-497`): names
starting with `printer_` feed the max; any parse failure is swallowed by
the `except` and leaves the index at 1. -/
def computeNextIdx (names : List String) : Int :=
  match names.filter (fun n => pyStartsWith n "printer_") with
  | [] => 1
  | numbered =>
    match maxParsed numbered with
    | some m => m + 1
    | none => 1

/-- A name matching the spec's pattern `prefix + underscore + integer`:
`printer_` followed by exactly one field that parses as an integer. -/
def matchesNumberedPat (n : String) : Bool :=
  pyStartsWith n "printer_" && (pySplit n "_").length == 2 && (pyToInt (nameField n)).isSome

/-- Modelled from the spec (name allocation, section 4.4): the next name
uses the maximum integer observed among names matching
`prefix + underscore + integer`, plus one, or one if none exist. -/
def specNextIdx (names : List String) : Int :=
  match names.filter matchesNumberedPat with
  | [] => 1
  | numbered =>
    match maxParsed numbered with
    | some m => m + 1
    | none => 1

/-- Reconciliation actions applied by the pass, one constructor per
branch of `discover_and_add_printers` that touches CUPS or the registry
(plus `skip` for the unchanged case). -/
inductive RAction where
  | addNew (name uri : String) (mac : Option String)
  | updateUri (name : String) (oldUri : Option String) (newUri : String)
  | reattach (name uri : String)
  | registerMacOnly (mac name : String)
  | skip (name : String)
deriving DecidableEq

/-- Whether an action is a no-change skip. -/
def RAction.isSkip : RAction → Bool
  | RAction.skip _ => true
  | _ => false

/-- Live state threaded through one reconciliation pass: the registry
(mutated live), the real CUPS queue set (mutated by the applied
`lpadmin` calls), the running name index, the registry-dirty flag, and
the log of actions taken. -/
structure PassState where
  registry : Registry
  printers : PrinterSet
  nextIdx : Int
  registryChanged : Bool
  actions : List RAction
deriving DecidableEq

/-- Processing of one discovered URI (`printer_boot_notify.py:504-612`).
`SP`/`SU` are the stale snapshot of configured queues and their URI set,
taken at the start of the pass; decisions use them even after earlier
iterations have changed the real queue set. -/
def processUri (macOf : String → Option String) (now : String)
    (SP : PrinterSet) (SU : List String) (st : PassState) (uri : String) :
    PassState :=
  match extract_ip_from_uri uri with
  | none => st
  | some ip =>
    if ip == "" then st
    else
      match macOf ip with
      | some mac =>
        match get_printer_name_by_mac mac st.registry with
        | some existingName =>
          let oldUri := Option.join (dictGet existingName SP)
          if oldUri == some uri then
            { st with actions := st.actions ++ [RAction.skip existingName] }
          else if (dictGet existingName SP).isSome then
            { st with
              printers := dictSet existingName (some uri) st.printers,
              registry := touchRecord mac ip uri now st.registry,
              registryChanged := true,
              actions := st.actions ++ [RAction.updateUri existingName oldUri uri] }
          else
            { st with
              printers := dictSet existingName (some uri) st.printers,
              registry := touchRecord mac ip uri now st.registry,
              registryChanged := true,
              actions := st.actions ++ [RAction.reattach existingName uri] }
        | none =>
          if SU.contains uri then
            match get_printer_by_uri uri SP with
            | some name =>
              { st with
                registry := dictSet mac ⟨name, ip, uri, now, now⟩ st.registry,
                registryChanged := true,
                actions := st.actions ++ [RAction.registerMacOnly mac name] }
            | none => st
          else
            let name := "printer_" ++ toString st.nextIdx
            { st with
              printers := dictSet name (some uri) st.printers,
              registry := dictSet mac ⟨name, ip, uri, now, now⟩ st.registry,
              nextIdx := st.nextIdx + 1,
              registryChanged := true,
              actions := st.actions ++ [RAction.addNew name uri (some mac)] }
      | none =>
        if SU.contains uri then st
        else
          let name := "printer_" ++ toString st.nextIdx
          { st with
            printers := dictSet name (some uri) st.printers,
            nextIdx := st.nextIdx + 1,
            actions := st.actions ++ [RAction.addNew name uri none] }

/-- `discover_and_add_printers` (`printer_boot_notify.py:447-636`),
parameterized by the MAC resolver, the current timestamp, the loaded
registry, the configured queue snapshot, and the deduplicated list of
discovered URIs. -/
def discover_and_add_printers (macOf : String → Option String) (now : String)
    (registry0 : Registry) (printers0 : PrinterSet) (discovered : List String) :
    PassState :=
  discovered.foldl (processUri macOf now printers0 (printers0.filterMap Prod.snd))
    ⟨registry0, printers0, computeNextIdx (printers0.map Prod.fst), false, []⟩

/-- A discovered URI is settled in a state when processing it can only
skip: its IP is unextractable, or its resolved MAC is registered under a
queue name currently bound to exactly this URI, or — when no MAC
resolves — the URI is already configured on some queue. -/
def settledUri (macOf : String → Option String) (R : Registry) (S : PrinterSet)
    (uri : String) : Bool :=
  match extract_ip_from_uri uri with
  | none => true
  | some ip =>
    if ip == "" then true
    else
      match macOf ip with
      | some mac =>
        match get_printer_name_by_mac mac R with
        | some n => Option.join (dictGet n S) == some uri
        | none => false
      | none => (S.filterMap Prod.snd).contains uri

end PrinterServer

namespace PrinterServer

/-- C1: dispatching against a never-ready queue with three attempts makes
exactly 3 readiness checks, 0 submissions, 2 sleeps, and surfaces the
third attempt's reason as the 503 dispatch error. -/
theorem never_ready_three_attempts (queueName : String) (msgs : Nat → String) :
    send_to_cups queueName (fun k => AttemptOutcome.notReady (msgs k)) true 3 =
      ⟨Except.error (DispatchErr.http 503 (msgs 3)), 3, 0, 2⟩ := by
  rfl

/-- C7 counterexample: a configured retry count of 0 yields zero
readiness checks (zero dispatch attempts, the dispatch surfaces the
unclassified `raise None` error) and a configured timeout of 0 is used
as-is by the reachability probe — nothing is clamped. -/
theorem config_zero_not_clamped :
    (send_to_cups "printer_1" (fun _ => AttemptOutcome.notReady "down") true 0).readyChecks
        = 0 ∧
    ¬ 1 ≤ (send_to_cups "printer_1" (fun _ => AttemptOutcome.notReady "down") true 0).readyChecks ∧
    (send_to_cups "printer_1" (fun _ => AttemptOutcome.notReady "down") true 0).result
        = Except.error DispatchErr.noneRaised ∧
    reachability_timeout 0 none = 0 ∧
    ¬ (0 : ℚ) < reachability_timeout 0 none :=
  ⟨rfl, by decide, rfl, rfl, by norm_num [reachability_timeout]⟩

/-- C7 amended: configuration values are used without clamping — a
non-positive retry count makes the dispatch perform zero attempts and
raise the unclassified error, and the reachability probe uses exactly
the configured timeout when none is passed explicitly. -/
theorem config_passthrough_unclamped (queueName : String)
    (env : Nat → AttemptOutcome) (cfg : Int) (hcfg : cfg ≤ 0) (cfgTimeout : ℚ) :
    send_to_cups queueName env true cfg =
      ⟨Except.error DispatchErr.noneRaised, 0, 0, 0⟩ ∧
    reachability_timeout cfgTimeout none = cfgTimeout := by
  have h0 : cfg.toNat = 0 := Int.toNat_eq_zero.mpr hcfg
  exact ⟨by simp [send_to_cups, h0, runAttempts], rfl⟩

/-- Witness for C7 amended at a configured retry count of -2 and a
configured timeout of -1. -/
theorem config_passthrough_unclamped_witness :
    send_to_cups "printer_1" (fun _ => AttemptOutcome.notReady "down") true (-2) =
      ⟨Except.error DispatchErr.noneRaised, 0, 0, 0⟩ ∧
    reachability_timeout (-1) none = -1 :=
  config_passthrough_unclamped "printer_1" _ (-2) (by decide) (-1)

/-- C5: a queue whose network target is unreachable is reported not ready
with the unreachability reason, whatever its administrative state or
accepting flag — reachability is checked before the administrative
checks. -/
theorem unreachable_precedes_admin_state (env : ReadyEnv) (printerName : String)
    (autoEnable : Bool) (info : PrinterInfo) (ip : String)
    (hinfo : env.info = some info) (hip : info.ip = some ip)
    (hr : env.reachable ip info.port = false) :
    ensure_printer_ready env printerName autoEnable =
      (false, ReadyMsg.notReachable printerName ip info.port) := by
  simp [ensure_printer_ready, hinfo, hip, hr]

/-- Witness for C5: a queue that is simultaneously stopped and not
accepting still gets the unreachability reason. -/
theorem unreachable_precedes_admin_state_witness :
    ensure_printer_ready
      { info := some ⟨some "10.0.0.5", 9100, 5, false⟩,
        reachable := fun _ _ => false,
        enableOk := true, acceptOk := true,
        stateAfterEnable := 5, acceptingAfterAccept := false }
      "printer_1" true =
      (false, ReadyMsg.notReachable "printer_1" "10.0.0.5" 9100) :=
  unreachable_precedes_admin_state _ "printer_1" true
    ⟨some "10.0.0.5", 9100, 5, false⟩ "10.0.0.5" rfl rfl rfl

/-- C6 counterexample: a reachable network (socket://) queue found
stopped, whose remediation call completes but which in fact remains
stopped afterwards, is reported ready by the code; the spec's
once-re-checking gate would report `Stopped`.  The gate therefore does
not re-check the remediated condition before reporting ready. -/
theorem remediation_not_rechecked :
    ensure_printer_ready
      { info := some ⟨some "10.0.0.5", 9100, 5, true⟩,
        reachable := fun _ _ => true,
        enableOk := true, acceptOk := true,
        stateAfterEnable := 5, acceptingAfterAccept := true }
      "printer_1" true = (true, ReadyMsg.ready) ∧
    ensure_printer_ready_spec
      { info := some ⟨some "10.0.0.5", 9100, 5, true⟩,
        reachable := fun _ _ => true,
        enableOk := true, acceptOk := true,
        stateAfterEnable := 5, acceptingAfterAccept := true }
      "printer_1" true = (false, ReadyMsg.stopped "printer_1") :=
  ⟨rfl, rfl⟩

/-- Once a queue passes the reachability gate — it has no network
address, or the probe of its address succeeds — `ensure_printer_ready`
is exactly its administrative-check tail. -/
theorem ensure_reduces_when_reachable (env : ReadyEnv) (printerName : String)
    (info : PrinterInfo) (autoEnable : Bool) (hinfo : env.info = some info)
    (hre : ∀ ip, info.ip = some ip → env.reachable ip info.port = true) :
    ensure_printer_ready env printerName autoEnable =
      adminChecks env printerName info autoEnable := by
  unfold ensure_printer_ready
  simp only [hinfo]
  cases hip : info.ip with
  | none => rfl
  | some ip => simp [hre ip hip]

/-- C6 amended: for every queue that passes the reachability gate (its
network target, if any, being reachable), with auto-remediation the gate
attempts the remediation call and trusts its completion without
re-reading the queue state (it reports ready even if the condition in
fact persists, and reports the call failure otherwise); without
auto-remediation it reports `Stopped` or `NotAccepting` respectively. -/
theorem remediation_behaviour (env : ReadyEnv) (printerName : String)
    (info : PrinterInfo) (hinfo : env.info = some info)
    (hre : ∀ ip, info.ip = some ip → env.reachable ip info.port = true) :
    (info.state = 5 →
      ensure_printer_ready env printerName false = (false, ReadyMsg.stopped printerName)) ∧
    (info.state ≠ 5 → info.is_accepting = false →
      ensure_printer_ready env printerName false = (false, ReadyMsg.notAccepting printerName)) ∧
    (info.state = 5 → env.enableOk = false →
      ensure_printer_ready env printerName true =
        (false, ReadyMsg.stoppedEnableFailed printerName)) ∧
    (info.state = 5 → env.enableOk = true → info.is_accepting = true →
      ensure_printer_ready env printerName true = (true, ReadyMsg.ready)) ∧
    (info.state ≠ 5 → info.is_accepting = false → env.acceptOk = true →
      ensure_printer_ready env printerName true = (true, ReadyMsg.ready)) ∧
    (info.state ≠ 5 → info.is_accepting = false → env.acceptOk = false →
      ensure_printer_ready env printerName true =
        (false, ReadyMsg.acceptEnableFailed printerName)) := by
  have hred : ∀ b, ensure_printer_ready env printerName b =
      adminChecks env printerName info b :=
    fun b => ensure_reduces_when_reachable env printerName info b hinfo hre
  refine ⟨?_, ?_, ?_, ?_, ?_, ?_⟩ <;> intros <;>
    simp_all [adminChecks]

/-- Witness for C6 amended: a reachable socket:// queue that is stopped
but accepting, with a successful remediation call, is reported ready
even though it is still stopped afterwards. -/
theorem remediation_behaviour_witness :
    ensure_printer_ready
      { info := some ⟨some "10.0.0.5", 9100, 5, true⟩,
        reachable := fun _ _ => true,
        enableOk := true, acceptOk := true,
        stateAfterEnable := 5, acceptingAfterAccept := true }
      "printer_1" true = (true, ReadyMsg.ready) :=
  (remediation_behaviour _ "printer_1" ⟨some "10.0.0.5", 9100, 5, true⟩ rfl
    (fun _ _ => rfl)).2.2.2.1 rfl rfl rfl

/-- C8 counterexample: a save failure that is not a permission error is
reported (`False`) after writing only to the primary location — no
alternate location is attempted, contradicting the claim that every
save failure attempts one alternate location. -/
theorem save_failure_without_alternate :
    save_mac_registry
      { primaryDirExists := true, write := fun _ => WriteOutcome.otherFailure } =
      (false, [RegistryPath.primary]) :=
  rfl

/-- C8 amended: only a permission-denied failure on the registry's
storage location triggers the single alternate-location attempt; any
other failure (and a failed alternate write) is reported as a `False`
return rather than an exception, and the in-memory registry — which the
save never touches — stays authoritative. -/
theorem save_alternate_only_on_permission_error (env : SaveEnv)
    (hdir : env.primaryDirExists = true) :
    (env.write RegistryPath.primary = WriteOutcome.ok →
      save_mac_registry env = (true, [RegistryPath.primary])) ∧
    (env.write RegistryPath.primary = WriteOutcome.permissionDenied →
      env.write RegistryPath.fallback = WriteOutcome.ok →
      save_mac_registry env = (true, [RegistryPath.primary, RegistryPath.fallback])) ∧
    (env.write RegistryPath.primary = WriteOutcome.permissionDenied →
      env.write RegistryPath.fallback ≠ WriteOutcome.ok →
      save_mac_registry env = (false, [RegistryPath.primary, RegistryPath.fallback])) ∧
    (env.write RegistryPath.primary = WriteOutcome.otherFailure →
      save_mac_registry env = (false, [RegistryPath.primary])) := by
  refine ⟨?_, ?_, ?_, ?_⟩ <;> intros <;>
    simp_all [save_mac_registry, get_mac_registry_path]

/-- Witness for C8 amended: permission denied on the primary path, one
successful alternate write. -/
theorem save_alternate_only_on_permission_error_witness :
    save_mac_registry
      { primaryDirExists := true,
        write := fun p =>
          match p with
          | RegistryPath.primary => WriteOutcome.permissionDenied
          | RegistryPath.fallback => WriteOutcome.ok } =
      (true, [RegistryPath.primary, RegistryPath.fallback]) :=
  (save_alternate_only_on_permission_error _ rfl).2.1 rfl rfl

/-- Looking up the touched key returns the record with its
`last_ip`/`last_uri`/`last_seen` updated. -/
theorem dictGet_touchRecord (k ip uri now : String) (R : Registry) :
    dictGet k (touchRecord k ip uri now R) =
      (dictGet k R).map
        (fun r => { r with last_ip := ip, last_uri := uri, last_seen := now }) := by
  induction R with
  | nil => rfl
  | cons e rest ih =>
    simp only [touchRecord, List.map_cons] at ih ⊢
    cases hbe : (e.1 == k) with
    | true => simp [dictGet, hbe]
    | false =>
      simp only [dictGet, hbe, Bool.false_eq_true, if_false]
      exact ih

/-- Processing a settled URI leaves the registry, the queue set, the name
index and the dirty flag unchanged, and appends at most a skip to the
action log. -/
theorem processUri_settled (macOf : String → Option String) (now : String)
    (R : Registry) (S : PrinterSet) (st : PassState) (uri : String)
    (hreg : st.registry = R) (hpr : st.printers = S)
    (hset : settledUri macOf R S uri = true) :
    (processUri macOf now S (S.filterMap Prod.snd) st uri).registry = R ∧
    (processUri macOf now S (S.filterMap Prod.snd) st uri).printers = S ∧
    (processUri macOf now S (S.filterMap Prod.snd) st uri).nextIdx = st.nextIdx ∧
    (processUri macOf now S (S.filterMap Prod.snd) st uri).registryChanged
      = st.registryChanged ∧
    (processUri macOf now S (S.filterMap Prod.snd) st uri).actions.all RAction.isSkip
      = st.actions.all RAction.isSkip := by
  unfold settledUri at hset
  unfold processUri
  cases hext : extract_ip_from_uri uri with
  | none => exact ⟨hreg, hpr, rfl, rfl, rfl⟩
  | some ip =>
    simp only [hext] at hset
    cases hip0 : (ip == "") with
    | true => simp [hip0, hreg, hpr]
    | false =>
      simp only [hip0, Bool.false_eq_true, if_false] at hset ⊢
      cases hm : macOf ip with
      | none =>
        simp only [hm] at hset ⊢
        rw [if_pos hset]
        exact ⟨hreg, hpr, rfl, rfl, rfl⟩
      | some mac =>
        simp only [hm] at hset ⊢
        rw [hreg]
        cases hn : get_printer_name_by_mac mac R with
        | none => simp only [hn] at hset; cases hset
        | some n =>
          simp only [hn] at hset
          dsimp only
          rw [if_pos hset]
          simp [hpr, List.all_append, RAction.isSkip]

/-- Folding the pass over settled URIs preserves the whole state except
for appended skips. -/
theorem foldl_settled (macOf : String → Option String) (now : String)
    (R : Registry) (S : PrinterSet) (disc : List String)
    (hs : ∀ u ∈ disc, settledUri macOf R S u = true) :
    ∀ st : PassState, st.registry = R → st.printers = S →
      (disc.foldl (processUri macOf now S (S.filterMap Prod.snd)) st).registry = R ∧
      (disc.foldl (processUri macOf now S (S.filterMap Prod.snd)) st).printers = S ∧
      (disc.foldl (processUri macOf now S (S.filterMap Prod.snd)) st).nextIdx
        = st.nextIdx ∧
      (disc.foldl (processUri macOf now S (S.filterMap Prod.snd)) st).registryChanged
        = st.registryChanged ∧
      (disc.foldl (processUri macOf now S (S.filterMap Prod.snd)) st).actions.all
          RAction.isSkip
        = st.actions.all RAction.isSkip := by
  induction disc with
  | nil => intro st h1 h2; exact ⟨h1, h2, rfl, rfl, rfl⟩
  | cons u rest ih =>
    intro st h1 h2
    have hu := processUri_settled macOf now R S st u h1 h2 (hs u (by simp))
    have hr := ih (fun v hv => hs v (by simp [hv]))
      (processUri macOf now S (S.filterMap Prod.snd) st u) hu.1 hu.2.1
    simp only [List.foldl_cons]
    exact ⟨hr.1, hr.2.1, hr.2.2.1.trans hu.2.2.1, hr.2.2.2.1.trans hu.2.2.2.1,
      hr.2.2.2.2.trans hu.2.2.2.2⟩

/-- C2 counterexample: two discovered endpoints that resolve to the same
hardware address leave the first pass unsettled; a second pass against
the unchanged network, registry and queue set still issues an UpdateUri
action and a registry write (the queue oscillates between the two
URIs). -/
theorem reconciliation_second_pass_acts :
    (let macOf : String → Option String := fun ip =>
      if ip == "10.0.0.2" || ip == "10.0.0.3" then some "AA:AA:AA:AA:AA:01" else none
     let disc := ["socket://10.0.0.2:9100", "socket://10.0.0.3:9100"]
     let pass1 := discover_and_add_printers macOf "t1"
       [("AA:AA:AA:AA:AA:01",
         ⟨"printer_1", "10.0.0.1", "socket://10.0.0.1:9100", "t0", "t0"⟩)]
       [("printer_1", some "socket://10.0.0.1:9100")] disc
     let pass2 := discover_and_add_printers macOf "t2" pass1.registry pass1.printers disc
     pass2.actions =
       [RAction.updateUri "printer_1" (some "socket://10.0.0.3:9100")
          "socket://10.0.0.2:9100",
        RAction.skip "printer_1"] ∧
     pass2.registryChanged = true ∧
     pass2.printers ≠ pass1.printers) := by
  decide

/-- C2 amended: a reconciliation pass run from a state in which every
discovered endpoint is settled — its resolved MAC registered under a
queue currently bound to exactly the discovered URI, or (MAC-less) a URI
already configured — performs zero actions: no queue added, no URI
updated, no registry write, only skips.  In particular a second pass is
action-free whenever the first pass left every discovered endpoint
settled; the counterexample shows a first pass need not do so. -/
theorem reconciliation_settled_pass_no_actions (macOf : String → Option String)
    (now : String) (R : Registry) (S : PrinterSet) (disc : List String)
    (hsettled : ∀ u ∈ disc, settledUri macOf R S u = true) :
    (discover_and_add_printers macOf now R S disc).registry = R ∧
    (discover_and_add_printers macOf now R S disc).printers = S ∧
    (discover_and_add_printers macOf now R S disc).registryChanged = false ∧
    (discover_and_add_printers macOf now R S disc).actions.all RAction.isSkip
      = true := by
  have h := foldl_settled macOf now R S disc hsettled
    ⟨R, S, computeNextIdx (S.map Prod.fst), false, []⟩ rfl rfl
  exact ⟨h.1, h.2.1, h.2.2.2.1, h.2.2.2.2⟩

/-- Witness for C2 amended: one registered, unmoved endpoint — the pass
only skips and writes nothing. -/
theorem reconciliation_settled_pass_no_actions_witness :
    (discover_and_add_printers
        (fun ip => if ip == "10.0.0.5" then some "AA:AA:AA:AA:AA:01" else none) "t2"
        [("AA:AA:AA:AA:AA:01",
          ⟨"printer_1", "10.0.0.5", "socket://10.0.0.5:9100", "t0", "t0"⟩)]
        [("printer_1", some "socket://10.0.0.5:9100")]
        ["socket://10.0.0.5:9100"]).registryChanged = false ∧
    (discover_and_add_printers
        (fun ip => if ip == "10.0.0.5" then some "AA:AA:AA:AA:AA:01" else none) "t2"
        [("AA:AA:AA:AA:AA:01",
          ⟨"printer_1", "10.0.0.5", "socket://10.0.0.5:9100", "t0", "t0"⟩)]
        [("printer_1", some "socket://10.0.0.5:9100")]
        ["socket://10.0.0.5:9100"]).actions.all RAction.isSkip = true :=
  ⟨(reconciliation_settled_pass_no_actions _ "t2" _ _ _ (by decide)).2.2.1,
   (reconciliation_settled_pass_no_actions _ "t2" _ _ _ (by decide)).2.2.2⟩

/-- C3 counterexample: a registered device whose registry record still
carries the old URI, while its queue is already configured with the
discovered URI, is skipped — and the stale record is left unchanged.  The
skip decision therefore follows the queue's configured URI, not the
registry record's last known URI (which here differs from the discovered
one, so the claim would demand an UpdateUri). -/
theorem skip_follows_queue_uri_not_registry :
    (let macOf : String → Option String :=
      fun ip => if ip == "10.0.0.9" then some "AA:AA:AA:AA:AA:01" else none
     let R : Registry :=
       [("AA:AA:AA:AA:AA:01",
         ⟨"printer_1", "10.0.0.5", "socket://10.0.0.5:9100", "t0", "t0"⟩)]
     let S : PrinterSet := [("printer_1", some "socket://10.0.0.9:9100")]
     let out := discover_and_add_printers macOf "t1" R S ["socket://10.0.0.9:9100"]
     (dictGet "AA:AA:AA:AA:AA:01" R).map RegRecord.last_uri
         = some "socket://10.0.0.5:9100" ∧
     out.actions = [RAction.skip "printer_1"] ∧
     out.registry = R) := by
  decide

/-- C3 amended: for a discovered endpoint whose resolved MAC is
registered under name `N`, the pass skips exactly when the *configured
queue's current URI* equals the discovered URI (the registry's last
known URI plays no part in the comparison); when they differ and queue
`N` exists, exactly one UpdateUri retargets `N` and the registry
record's `last_uri` becomes the discovered URI. -/
theorem registered_endpoint_behaviour (macOf : String → Option String)
    (now : String) (R : Registry) (S : PrinterSet) (u ip mac : String)
    (rec : RegRecord) (hip : extract_ip_from_uri u = some ip)
    (hipne : (ip == "") = false) (hmac : macOf ip = some mac)
    (hrec : dictGet (strUpper mac) R = some rec) (hup : strUpper mac = mac) :
    (Option.join (dictGet rec.name S) = some u →
      discover_and_add_printers macOf now R S [u] =
        ⟨R, S, computeNextIdx (S.map Prod.fst), false, [RAction.skip rec.name]⟩) ∧
    (Option.join (dictGet rec.name S) ≠ some u → (dictGet rec.name S).isSome = true →
      discover_and_add_printers macOf now R S [u] =
        ⟨touchRecord mac ip u now R, dictSet rec.name (some u) S,
          computeNextIdx (S.map Prod.fst), true,
          [RAction.updateUri rec.name (Option.join (dictGet rec.name S)) u]⟩ ∧
      dictGet mac (touchRecord mac ip u now R) =
        some { rec with last_ip := ip, last_uri := u, last_seen := now }) := by
  have hname : get_printer_name_by_mac mac R = some rec.name := by
    simp [get_printer_name_by_mac, hrec]
  unfold discover_and_add_printers
  simp only [List.foldl_cons, List.foldl_nil]
  unfold processUri
  simp only [hip, hipne, Bool.false_eq_true, if_false, hmac]
  simp only [hname]
  constructor
  · intro hj
    rw [if_pos (by rw [beq_iff_eq]; exact hj)]
    simp
  · intro hne hsome
    rw [if_neg (by simpa using hne), if_pos hsome]
    refine ⟨rfl, ?_⟩
    rw [dictGet_touchRecord, ← hup, hrec]
    rfl

/-- Witness for C3 amended: the spec's rename-on-IP-change scenario —
queue and registry both at the old URI, device reappears at the new
one — yields exactly one UpdateUri and the updated record. -/
theorem registered_endpoint_behaviour_witness :
    discover_and_add_printers
      (fun ip => if ip == "10.0.0.9" then some "AA:AA:AA:AA:AA:01" else none) "t1"
      [("AA:AA:AA:AA:AA:01",
        ⟨"printer_1", "10.0.0.5", "socket://10.0.0.5:9100", "t0", "t0"⟩)]
      [("printer_1", some "socket://10.0.0.5:9100")]
      ["socket://10.0.0.9:9100"] =
      ⟨touchRecord "AA:AA:AA:AA:AA:01" "10.0.0.9" "socket://10.0.0.9:9100" "t1"
        [("AA:AA:AA:AA:AA:01",
          ⟨"printer_1", "10.0.0.5", "socket://10.0.0.5:9100", "t0", "t0"⟩)],
       dictSet "printer_1" (some "socket://10.0.0.9:9100")
         [("printer_1", some "socket://10.0.0.5:9100")],
       computeNextIdx ([("printer_1",
         (some "socket://10.0.0.5:9100" : Option String))].map Prod.fst),
       true,
       [RAction.updateUri "printer_1" (some "socket://10.0.0.5:9100")
         "socket://10.0.0.9:9100"]⟩ :=
  ((registered_endpoint_behaviour _ "t1" _ _ "socket://10.0.0.9:9100" "10.0.0.9"
      "AA:AA:AA:AA:AA:01" ⟨"printer_1", "10.0.0.5", "socket://10.0.0.5:9100", "t0", "t0"⟩
      (by decide) (by decide) rfl (by decide) (by decide)).2
    (by decide) (by decide)).1

/-- C4 counterexample: with the single configured queue
`printer_5_old` — which does not match the pattern
`prefix + underscore + integer` — the spec formula allocates index 1,
but the code parses the field between the underscores and allocates
index 6. -/
theorem next_name_pattern_mismatch :
    computeNextIdx ["printer_5_old"] = 6 ∧ specNextIdx ["printer_5_old"] = 1 ∧
    (6 : Int) ≠ 1 := by
  refine ⟨by decide, by decide, by decide⟩

/-- C4 amended: the allocator takes the maximum over all names starting
with `printer_` of the integer parsed from the text between the first
and second underscore, plus one, falling back to 1 when there are no
such names or when any single field fails to parse; this agrees with the
spec's `prefix + underscore + integer` formula whenever every configured
name starting with `printer_` fully matches that pattern (in particular
`printer_1`, `printer_3` yield `printer_4`). -/
theorem next_name_allocation (names : List String)
    (hwf : ∀ n ∈ names, pyStartsWith n "printer_" = true →
      matchesNumberedPat n = true) :
    computeNextIdx names = specNextIdx names := by
  have hms : ∀ n, matchesNumberedPat n = true → pyStartsWith n "printer_" = true := by
    intro n h
    simp only [matchesNumberedPat, Bool.and_eq_true] at h
    exact h.1.1
  have hf : names.filter (fun n => pyStartsWith n "printer_")
      = names.filter matchesNumberedPat := by
    apply List.filter_congr
    intro n hn
    cases hsw : pyStartsWith n "printer_" with
    | true => exact (hwf n hn hsw).symm
    | false =>
      cases hmp : matchesNumberedPat n with
      | true => exact absurd (hms n hmp) (by simp [hsw])
      | false => rfl
  unfold computeNextIdx specNextIdx
  rw [hf]

/-- Witness for C4 amended: queues `printer_1` and `printer_3` satisfy
the pattern hypothesis and the next index is 4 on both readings. -/
theorem next_name_allocation_witness :
    computeNextIdx ["printer_1", "printer_3"]
        = specNextIdx ["printer_1", "printer_3"] ∧
    computeNextIdx ["printer_1", "printer_3"] = 4 :=
  ⟨next_name_allocation ["printer_1", "printer_3"] (by decide), by decide⟩

/-- A hex digit of either case uppercases (with `-` replaced by `:`) to
an uppercase hex digit. -/
theorem hexAny_normalize (c : Nat) (h : isHexAny c = true) :
    isHexUpper (normalizeByte c) = true := by
  simp only [isHexAny, Bool.or_eq_true, Bool.and_eq_true, decide_eq_true_eq] at h
  simp only [normalizeByte, upByte, isHexUpper, Bool.or_eq_true, Bool.and_eq_true,
    decide_eq_true_eq]
  split_ifs <;> omega

/-- A lenient separator normalizes to a colon. -/
theorem sepAny_normalize (c : Nat) (h : isSepAny c = true) :
    (normalizeByte c == 58) = true := by
  simp only [isSepAny, Bool.or_eq_true, beq_iff_eq] at h
  simp only [normalizeByte, upByte, beq_iff_eq]
  split_ifs <;> omega

/-- Normalizing a lenient MAC match yields a strict (normalized) MAC. -/
theorem macChunks_normalize (n : Nat) (l : List Nat)
    (h : macChunks isHexAny isSepAny n l = true) :
    macChunks isHexUpper (· == 58) n (normalizeMac l) = true := by
  induction n generalizing l with
  | zero =>
    match l with
    | [] => simp [macChunks] at h
    | [a] => simp [macChunks] at h
    | [a, b] =>
      simp only [macChunks, Bool.and_eq_true] at h
      simp only [normalizeMac, List.map, macChunks, Bool.and_eq_true]
      exact ⟨hexAny_normalize a h.1, hexAny_normalize b h.2⟩
    | a :: b :: s :: rest => simp [macChunks] at h
  | succ n ih =>
    match l with
    | [] => simp [macChunks] at h
    | [a] => simp [macChunks] at h
    | [a, b] => simp [macChunks] at h
    | a :: b :: s :: rest =>
      simp only [macChunks, Bool.and_eq_true] at h
      simp only [normalizeMac, List.map, macChunks, Bool.and_eq_true]
      exact ⟨⟨⟨hexAny_normalize a h.1.1.1, hexAny_normalize b h.1.1.2⟩,
        sepAny_normalize s h.1.2⟩, ih rest h.2⟩

/-- `findMacWindow` only returns windows matching the lenient pattern. -/
theorem findMacWindow_lenient (l w : List Nat) (h : findMacWindow l = some w) :
    macLenient w = true := by
  induction l with
  | nil => simp [findMacWindow] at h
  | cons c rest ih =>
    simp only [findMacWindow] at h
    split at h
    · cases h
      assumption
    · exact ih h

/-- Mechanism 1 only returns strictly validated MACs. -/
theorem findLladdr_strict (toks : List (List Nat)) (m : List Nat)
    (h : findLladdr toks = some m) : macStrict m = true := by
  induction toks with
  | nil => simp [findLladdr] at h
  | cons t rest ih =>
    simp only [findLladdr] at h
    split at h
    · split at h
      · split at h
        · cases h
          assumption
        · exact ih h
      · cases h
    · exact ih h

/-- Mechanism 2 only returns normalized MACs. -/
theorem scanArpLines_strict (ls : List (List Nat)) (m : List Nat)
    (h : scanArpLines ls = some m) : macStrict m = true := by
  induction ls with
  | nil => simp [scanArpLines] at h
  | cons line rest ih =>
    simp only [scanArpLines] at h
    split at h
    · exact ih h
    · split at h
      · cases h
        exact macChunks_normalize 5 _ (findMacWindow_lenient line _ (by assumption))
      · exact ih h

/-- Mechanism 3 only returns strictly validated MACs. -/
theorem scanProcArp_strict (ip : List Nat) (ls : List (List Nat)) (m : List Nat)
    (h : scanProcArp ip ls = some m) : macStrict m = true := by
  induction ls with
  | nil => simp [scanProcArp] at h
  | cons line rest ih =>
    simp only [scanProcArp] at h
    split at h
    · split at h
      · split at h
        · cases h
          assumption
        · exact ih h
      · exact ih h
    · exact ih h

/-- A present lookup mechanism that yields only validated MACs makes
`tryLookup` yield only validated MACs. -/
theorem tryLookup_strict {α : Type} (src : Option α) (f : α → Option (List Nat))
    (hf : ∀ x m, f x = some m → macStrict m = true) (m : List Nat)
    (h : tryLookup src f = some m) : macStrict m = true := by
  cases src with
  | none => simp [tryLookup] at h
  | some x => exact hf x m h

/-- C9: whatever the lookup mechanisms do, MAC resolution returns either
nothing or a normalized hardware address — an uppercase colon-separated
string of six hex octets — and (being total) never raises. -/
theorem get_mac_address_normalized (env : MacEnv) (ip m : List Nat)
    (h : get_mac_address env ip = some m) : macStrict m = true := by
  simp only [get_mac_address] at h
  split at h
  · cases h
  · split at h
    next heq =>
      cases h
      exact tryLookup_strict _ _ findLladdr_strict _ heq
    next =>
      split at h
      next heq =>
        cases h
        exact tryLookup_strict _ _ scanArpLines_strict _ heq
      next =>
        exact tryLookup_strict _ _ (scanProcArp_strict ip) _ h

/-- Witness for C9: an `arp -n` line carrying a lowercase, hyphenated
MAC is resolved to its uppercase colon-separated normalization. -/
theorem get_mac_address_normalized_witness :
    get_mac_address
      { ipNeighborTokens := none,
        arpLines := some [strBytes "? (10.0.0.5) at aa-bb-cc-dd-ee-01 on eth0",
                          strBytes "10.0.0.5 ether aa:bb:cc:dd:ee:01 C eth0"],
        procArpLines := none }
      (strBytes "10.0.0.5") = some (strBytes "AA:BB:CC:DD:EE:01") ∧
    macStrict (strBytes "AA:BB:CC:DD:EE:01") = true :=
  ⟨by decide,
    get_mac_address_normalized
      ⟨none,
        some [strBytes "? (10.0.0.5) at aa-bb-cc-dd-ee-01 on eth0",
              strBytes "10.0.0.5 ether aa:bb:cc:dd:ee:01 C eth0"],
        none⟩
      (strBytes "10.0.0.5") (strBytes "AA:BB:CC:DD:EE:01") (by decide)⟩

/-- C10: whatever the query parameters, the effective wait timeout lands in
[5, 120] and the effective interval in [1/2, 10]. -/
theorem wait_for_printers_clamped (timeout : Int) (interval : ℚ) :
    5 ≤ wait_timeout_eff timeout ∧ wait_timeout_eff timeout ≤ 120 ∧
    (1/2 : ℚ) ≤ wait_interval_eff interval ∧ wait_interval_eff interval ≤ 10 := by
  refine ⟨le_max_left _ _, max_le (by norm_num) (min_le_left _ _),
    le_max_left _ _, max_le (by norm_num) (min_le_left _ _)⟩

end PrinterServer
